import Mathlib

/-!
# Verification of the V5 WebSocket connection manager (bybit-api-gnome)

Shallow embedding of `src/websocket-client-v5.ts` (class `WebSocketClientV5`).
Stateful TypeScript methods are embedded as pure functions over an explicit
`ClientState`; socket I/O effects (socket creation, messages handed to
`ws.send`, scheduled reconnects, emitted events) are returned as explicit
result fields.  The connection registry (`WsStore`, imported by the client
from `./util/WsStore` but not part of the analysed sources) is modelled from
the specification, §4.1.
-/

namespace BybitV5

/-- Lifecycle states, from `WsConnectionStateEnum` (imported from
`./util/WsStore`; the states used by `websocket-client-v5.ts` are
INITIAL, CONNECTING, CONNECTED, CLOSING, matching spec §4.2). -/
inductive WsConnectionStateEnum where
  | INITIAL
  | CONNECTING
  | CONNECTED
  | CLOSING
deriving DecidableEq, Repr

open WsConnectionStateEnum

/-- The five V5 categories, from `type V5WSCategory = 'spot' | 'linear' |
'inverse' | 'option' | 'private'` (line 38).  `private` is a Lean keyword,
so the constructor is named `priv`. -/
inductive V5WSCategory where
  | spot
  | linear
  | inverse
  | option
  | priv
deriving DecidableEq, Repr

/-- The category's name as it appears in URLs and error strings. -/
def categoryStr : V5WSCategory → String
  | .spot => "spot"
  | .linear => "linear"
  | .inverse => "inverse"
  | .option => "option"
  | .priv => "private"

/-- Ready state of an underlying `WebSocket` transport handle
(`ws.readyState` in `sendWSMessage`, line 336). -/
inductive ReadyState where
  | CONNECTING
  | OPEN
  | CLOSING
  | CLOSED
deriving DecidableEq, Repr

/-- A transport socket handle: only its ready state is observable to the
client code under analysis. -/
structure Socket where
  readyState : ReadyState
deriving DecidableEq, Repr

/-- Modelled from the spec: the Connection Record held by the registry
(`WsStore`, not among the analysed sources).  Spec §3: per Connection Key,
the `state`, the exclusively owned `socket` handle, and the `topics` set
("a set of topic strings, insertion order irrelevant, unique by value").
Topics are kept as an insertion-ordered duplicate-free list (JS `Set`
iteration order). -/
structure ConnRecord where
  state : WsConnectionStateEnum
  ws : Option Socket
  topics : List String
deriving DecidableEq, Repr

/-- A record before any connection attempt: no socket, INITIAL, no topics. -/
def ConnRecord.initial : ConnRecord :=
  { state := INITIAL, ws := none, topics := [] }

/-- Modelled from the spec: `WsStore.addTopic` — JS `Set.add`: appends the
topic if absent, otherwise leaves the set unchanged (spec §4.1
`addTopic(key, topic)` on the `topics` set of §3). -/
def addTopic (l : List String) (t : String) : List String :=
  if t ∈ l then l else l ++ [t]

/-- Modelled from the spec: `WsStore.deleteTopic` — JS `Set.delete`:
removes the topic if present (spec §4.1 `removeTopic(key, topic)`). -/
def deleteTopic (l : List String) (t : String) : List String :=
  l.filter (fun x => x ≠ t)

/-- Modelled from the spec: the registry keyed by Connection Key (spec §3:
"Exactly one Connection Record exists per Connection Key"); one field per
category, every record starting as `ConnRecord.initial`. -/
structure WsStore where
  spot : ConnRecord
  linear : ConnRecord
  inverse : ConnRecord
  option : ConnRecord
  priv : ConnRecord
deriving DecidableEq, Repr

def WsStore.get (s : WsStore) : V5WSCategory → ConnRecord
  | .spot => s.spot
  | .linear => s.linear
  | .inverse => s.inverse
  | .option => s.option
  | .priv => s.priv

def WsStore.set (s : WsStore) (k : V5WSCategory) (r : ConnRecord) : WsStore :=
  match k with
  | .spot => { s with spot := r }
  | .linear => { s with linear := r }
  | .inverse => { s with inverse := r }
  | .option => { s with option := r }
  | .priv => { s with priv := r }

def WsStore.initial : WsStore :=
  { spot := .initial, linear := .initial, inverse := .initial,
    option := .initial, priv := .initial }

/-- Modelled from the spec: `WsStore.isWsOpen` — spec §4.1: `isOpen(key) ->
bool` is "true iff state == CONNECTED and socket is usable". -/
def isWsOpen (r : ConnRecord) : Bool :=
  r.state = CONNECTED &&
    (match r.ws with
     | some s => s.readyState = ReadyState.OPEN
     | none => false)

/-- Client options, from `V5WSClientOptions` (lines 10-19); absent optional
string fields are `none`. -/
structure V5WSClientOptions where
  key : Option String
  secret : Option String
  testnet : Bool
  pingInterval : Nat
  pongTimeout : Nat
  reconnectTimeout : Nat
  restoreSubscriptionsOnReconnect : Bool
  requestTimeoutMs : Nat
deriving DecidableEq, Repr

/-- The defaults merged in the constructor (lines 52-59). -/
def defaultOptions : V5WSClientOptions :=
  { key := none, secret := none, testnet := false,
    pingInterval := 20000, pongTimeout := 10000, reconnectTimeout := 500,
    restoreSubscriptionsOnReconnect := true, requestTimeoutMs := 10000 }

/-- The mutable state of a `WebSocketClientV5` instance: its options (the
`reconnectTimeout` option is mutated by `handleReconnection`, line 382, so
it lives in the state), the registry, and the request-id counter. -/
structure ClientState where
  options : V5WSClientOptions
  store : WsStore
  requestIdCounter : Nat
deriving DecidableEq, Repr

/-- A freshly constructed client (constructor, lines 47-60). -/
def ClientState.mk0 (opts : V5WSClientOptions) : ClientState :=
  { options := opts, store := .initial, requestIdCounter := 0 }

/-- An outbound/inbound WS frame, from `interface WSMessage` (lines 21-31);
the fields the client reads or writes. -/
structure WSMessage where
  op : Option String
  args : List String
  req_id : Option String
  success : Option Bool
  ret_msg : Option String
  topic : Option String
  type : Option String
  data : Option String
deriving DecidableEq, Repr

def WSMessage.empty : WSMessage :=
  { op := none, args := [], req_id := none, success := none,
    ret_msg := none, topic := none, type := none, data := none }

/-- `generateRequestId` (lines 388-390): `req_<counter+1>_<Date.now()>`;
takes the current wall clock as an argument. -/
def generateRequestId (ctr now : Nat) : String :=
  "req_" ++ toString (ctr + 1) ++ "_" ++ toString now

/-- `getWsBaseUrl` (lines 85-90). -/
def getWsBaseUrl (opts : V5WSClientOptions) (category : V5WSCategory) : String :=
  (if opts.testnet then "wss://stream-testnet.bybit.com"
   else "wss://stream.bybit.com") ++ "/v5/" ++ categoryStr category

/-! ## connect / connectWS (synchronous part) -/

/-- Result of `connect(category)` (lines 95-105) together with the
synchronous prefix of `connectWS` (lines 200-212): whether a new transport
socket was constructed (`new WebSocket(wsUrl, ...)`), and whether the
"already connected" warning was logged.  For a well-typed category neither
method can throw synchronously, so there is no error component.  The
method itself emits no events; events come only from callbacks of a
freshly created socket. -/
structure ConnectResult where
  st : ClientState
  socketCreated : Bool
  warned : Bool
deriving DecidableEq, Repr

/-- The synchronous prefix of `connectWS` (lines 200-212): construct a new
transport socket (readyState CONNECTING), store it with `setWs`
(replacing any previous handle), and set the state to CONNECTING. -/
def connectWSSync (st : ClientState) (category : V5WSCategory) : ClientState :=
  let r := st.store.get category
  let r2 := { r with state := CONNECTING,
                     ws := some { readyState := ReadyState.CONNECTING } }
  { st with store := st.store.set category r2 }

/-- `connect` (lines 95-105): if `isWsOpen` the call logs a warning and
returns; otherwise it delegates to `connectWS`.  Note: no credential check
occurs anywhere on this path, for any category. -/
def connect (st : ClientState) (category : V5WSCategory) : ConnectResult :=
  if isWsOpen (st.store.get category) then
    { st := st, socketCreated := false, warned := true }
  else
    { st := connectWSSync st category, socketCreated := true, warned := false }

/-- Result of the `ws.onopen` callback (lines 214-232): the new state;
whether an authentication handshake was started (private category with
both credentials present); whether the `open` event was emitted right away
(every other case — when authentication is started, `open` is emitted only
after the handshake resolves). -/
structure OnOpenResult where
  st : ClientState
  authStarted : Bool
  emittedOpen : Bool
deriving DecidableEq, Repr

/-- `ws.onopen` (lines 214-232): sets the state to CONNECTED (line 216;
the transport's readyState is OPEN once the open callback fires), then —
only for the private category with both `key` and `secret` configured —
starts `authenticate`; otherwise emits `open` and resolves immediately. -/
def onOpen (st : ClientState) (category : V5WSCategory) : OnOpenResult :=
  let r := st.store.get category
  let r2 := { r with state := CONNECTED,
                     ws := some { readyState := ReadyState.OPEN } }
  let st2 := { st with store := st.store.set category r2 }
  if category = V5WSCategory.priv && st.options.key.isSome
      && st.options.secret.isSome then
    { st := st2, authStarted := true, emittedOpen := false }
  else
    { st := st2, authStarted := false, emittedOpen := true }

/-! ## sending, subscribe, unsubscribe -/

/-- `sendWSMessage` (lines 333-343): throws when no socket is stored or its
readyState is not OPEN; otherwise hands the serialized message to
`ws.send`.  `sendOk = false` models `ws.send` itself throwing (a transport
send failure), which propagates to the caller. -/
def sendWSMessage (st : ClientState) (category : V5WSCategory)
    (sendOk : Bool) : Option String :=
  let r := st.store.get category
  match r.ws with
  | none => some ("WebSocket for " ++ categoryStr category ++ " is not connected")
  | some s =>
    if s.readyState ≠ ReadyState.OPEN then
      some ("WebSocket for " ++ categoryStr category ++ " is not connected")
    else if sendOk then none
    else some "ws.send failed"

/-- Result of a `subscribe`/`unsubscribe` call: the state after the call,
the frames successfully handed to `ws.send`, and the error thrown (if
any).  When `error` is `some _`, the TypeScript method threw at that point
and nothing after it ran. -/
structure CallResult where
  st : ClientState
  sent : List WSMessage
  error : Option String
deriving DecidableEq, Repr

/-- `subscribe` (lines 110-128): throws when the connection is not open;
otherwise builds the request `{op: 'subscribe', args: topics, req_id}`,
sends it, and only then (lines 124-127) adds each topic to the stored
set.  A throw from `sendWSMessage` propagates before any topic is
stored. -/
def subscribe (st : ClientState) (category : V5WSCategory)
    (topics : List String) (now : Nat) (sendOk : Bool) : CallResult :=
  if ¬ isWsOpen (st.store.get category) then
    { st := st, sent := [],
      error := some ("WebSocket for category " ++ categoryStr category
                     ++ " is not connected") }
  else
    let request : WSMessage :=
      { WSMessage.empty with
          op := some "subscribe", args := topics,
          req_id := some (generateRequestId st.requestIdCounter now) }
    let st1 := { st with requestIdCounter := st.requestIdCounter + 1 }
    match sendWSMessage st1 category sendOk with
    | some e => { st := st1, sent := [], error := some e }
    | none =>
      let r := st1.store.get category
      let r2 := { r with topics := topics.foldl addTopic r.topics }
      { st := { st1 with store := st1.store.set category r2 },
        sent := [request], error := none }

/-- `unsubscribe` (lines 133-151): mirrors `subscribe`, removing each topic
from the stored set after a successful send (lines 147-150). -/
def unsubscribe (st : ClientState) (category : V5WSCategory)
    (topics : List String) (now : Nat) (sendOk : Bool) : CallResult :=
  if ¬ isWsOpen (st.store.get category) then
    { st := st, sent := [],
      error := some ("WebSocket for category " ++ categoryStr category
                     ++ " is not connected") }
  else
    let request : WSMessage :=
      { WSMessage.empty with
          op := some "unsubscribe", args := topics,
          req_id := some (generateRequestId st.requestIdCounter now) }
    let st1 := { st with requestIdCounter := st.requestIdCounter + 1 }
    match sendWSMessage st1 category sendOk with
    | some e => { st := st1, sent := [], error := some e }
    | none =>
      let r := st1.store.get category
      let r2 := { r with topics := topics.foldl deleteTopic r.topics }
      { st := { st1 with store := st1.store.set category r2 },
        sent := [request], error := none }

/-- `subscribePrivateTopic` (lines 163-169): throws when either credential
is absent, otherwise delegates to `subscribe('private', topics)`. -/
def subscribePrivateTopic (st : ClientState) (topics : List String)
    (now : Nat) (sendOk : Bool) : CallResult :=
  if st.options.key.isNone || st.options.secret.isNone then
    { st := st, sent := [],
      error := some "API key and secret are required for private topics" }
  else
    subscribe st V5WSCategory.priv topics now sendOk

/-- `subscribeOrders` (lines 425-427): `subscribePrivateTopic(['order'])`. -/
def subscribeOrders (st : ClientState) (now : Nat) (sendOk : Bool) : CallResult :=
  subscribePrivateTopic st ["order"] now sendOk

/-! ## close and the onclose callback -/

/-- Result of `close(category)` (lines 174-181): whether an underlying
`ws.close()` was requested. -/
structure CloseResult where
  st : ClientState
  closeRequested : Bool
deriving DecidableEq, Repr

/-- `close` (lines 174-181): if a socket is stored for the key, set the
state to CLOSING and request the transport close; otherwise do nothing. -/
def close (st : ClientState) (category : V5WSCategory) : CloseResult :=
  let r := st.store.get category
  match r.ws with
  | none => { st := st, closeRequested := false }
  | some _ =>
    { st := { st with store := st.store.set category { r with state := CLOSING } },
      closeRequested := true }

/-- Result of the `ws.onclose` callback (lines 250-259): the new state,
the emitted `close` event, and whether `handleReconnection` was invoked. -/
structure OnCloseResult where
  st : ClientState
  emittedClose : Bool
  reconnectScheduled : Bool
deriving DecidableEq, Repr

/-- `ws.onclose` (lines 250-259): sets the state to INITIAL, emits `close`,
and invokes `handleReconnection` iff the transport-reported close code is
not 1000 and `restoreSubscriptionsOnReconnect` is enabled.  The decision
reads only `event.code` and the option flag — the record's prior lifecycle
state (in particular CLOSING from an explicit `close` call) is not
consulted.  The closed transport's readyState is CLOSED. -/
def onClose (st : ClientState) (category : V5WSCategory) (code : Nat) :
    OnCloseResult :=
  let r := st.store.get category
  let r2 := { r with state := INITIAL,
                     ws := r.ws.map (fun _ => { readyState := ReadyState.CLOSED }) }
  { st := { st with store := st.store.set category r2 },
    emittedClose := true,
    reconnectScheduled :=
      code ≠ 1000 && st.options.restoreSubscriptionsOnReconnect }

/-! ## reconnection (handleReconnection, lines 362-386) -/

/-- The delay `handleReconnection` waits before its next attempt
(line 363): the current `reconnectTimeout` option — a single client-wide
value, whatever the category. -/
def nextReconnectDelay (st : ClientState) (_category : V5WSCategory) : Nat :=
  st.options.reconnectTimeout

/-- The state change of one FAILED reconnect attempt (lines 379-384):
`reconnectTimeout` is doubled, capped at 30000, and the loop retries.  The
doubling mutates the shared options object, not any per-category record. -/
def reconnectFailureStep (st : ClientState) : ClientState :=
  { st with options :=
      { st.options with
          reconnectTimeout := min (st.options.reconnectTimeout * 2) 30000 } }

/-- The delays waited and the final stored `reconnectTimeout` along a run
of `handleReconnection` whose attempt outcomes are `outcomes` (`true` =
the awaited `connectWS` succeeded, ending the loop; `false` = it threw, so
the delay doubles and the loop recurses, lines 367-385).  The loop never
writes `reconnectTimeout` on success — there is no reset to the
baseline. -/
def reconnectTrace (rt : Nat) : List Bool → List Nat × Nat
  | [] => ([], rt)
  | outcome :: rest =>
    if outcome then ([rt], rt)
    else
      let next := reconnectTrace (min (rt * 2) 30000) rest
      (rt :: next.1, next.2)

/-- Result of the success path of one reconnect attempt (lines 368-378):
the state after `connectWS` resolved and the stored topics were replayed,
plus the argument lists of the `subscribe` calls issued by this path. -/
structure ReconnectSuccessResult where
  st : ClientState
  subscribeCalls : List (List String)
deriving DecidableEq, Repr

/-- The success path of `handleReconnection` (lines 368-378): `connectWS`
resolves — per `ws.onopen` (line 216) the record is CONNECTED with an open
socket — then the stored topic set is read (`Array.from(getTopics)`),
and, only if non-empty, one `subscribe(category, topics)` call replays all
of it. -/
def reconnectSuccess (st : ClientState) (category : V5WSCategory)
    (now : Nat) : ReconnectSuccessResult :=
  let r := st.store.get category
  let r2 := { r with state := CONNECTED,
                     ws := some { readyState := ReadyState.OPEN } }
  let st1 := { st with store := st.store.set category r2 }
  let topics := (st1.store.get category).topics
  if topics.length > 0 then
    let call := subscribe st1 category topics now true
    { st := call.st, subscribeCalls := [topics] }
  else
    { st := st1, subscribeCalls := [] }

/-! ## message routing and the authentication handshake -/

/-- Classification of one inbound frame by `handleMessage`
(lines 299-331), in source order. -/
inductive RoutedEvent where
  | pongDropped
  | response (m : WSMessage)
  | update (category : V5WSCategory) (topic : String) (data : Option String)
      (type : Option String)
  | message (category : V5WSCategory) (m : WSMessage)
deriving DecidableEq, Repr

/-- `handleMessage` (lines 299-331): pong frames are logged and dropped;
`subscribe`/`unsubscribe`/`auth` echoes are emitted as `response`; frames
carrying a topic are emitted as `update`; everything else as `message`. -/
def handleMessage (category : V5WSCategory) (m : WSMessage) : RoutedEvent :=
  if m.op = some "pong" then .pongDropped
  else if m.op = some "subscribe" || m.op = some "unsubscribe" then .response m
  else if m.op = some "auth" then .response m
  else
    match m.topic with
    | some t => .update category t m.data m.type
    | none => .message category m

/-- Outcome of the `authenticate` promise (lines 276-296). -/
inductive AuthOutcome where
  | resolved
  | rejectedAuthFailed (ret_msg : Option String)
  | rejectedTimeout
deriving DecidableEq, Repr

/-- The wait of `authenticate` (lines 276-296): the handler `handleAuth` is
registered with `this.once('response', handleAuth)` (line 294), so it
observes exactly the FIRST `response` event emitted before the
`requestTimeoutMs` timer fires, and is then removed — whatever that
frame's `op` is.  `responses` is the ordered list of `response` events
emitted within the timeout window.  If the first such frame has
`op = 'auth'`, a truthy `success` resolves and anything else rejects with
the server's `ret_msg`; any other first frame leaves the promise
unsettled until the timeout rejects it. -/
def authOutcome (responses : List WSMessage) : AuthOutcome :=
  match responses with
  | [] => .rejectedTimeout
  | m :: _ =>
    if m.op = some "auth" then
      if m.success = some true then .resolved
      else .rejectedAuthFailed m.ret_msg
    else .rejectedTimeout

/-- The `response` payloads that `handleMessage` emits for a list of
inbound frames, in arrival order — the events `authenticate`'s handler
competes for. -/
def responsesOf (category : V5WSCategory) (frames : List WSMessage) :
    List WSMessage :=
  frames.filterMap (fun m =>
    match handleMessage category m with
    | .response r => some r
    | _ => none)

/-- The authentication outcome as a function of the raw inbound frames
delivered within the timeout window. -/
def authOutcomeOfFrames (frames : List WSMessage) : AuthOutcome :=
  authOutcome (responsesOf V5WSCategory.priv frames)

/-! ## derived compositions and concrete states used by the theorems -/

/-- One FAILED reconnect attempt on `category`, end to end: `connectWS`
creates and stores a fresh socket (lines 204-212), the attempt fails and
the transport reports an abnormal close (`ws.onclose`, lines 250-259), and
the catch branch doubles the client-wide `reconnectTimeout` (line 382).
Only the failing category's record and the shared options are written. -/
def failedReconnectAttempt (st : ClientState) (category : V5WSCategory) :
    ClientState :=
  reconnectFailureStep (onClose (connectWSSync st category) category 1006).st

/-- The delay sequence the specification prescribes for `n` consecutive
failed reconnect attempts: the baseline doubled each time, capped at the
30000 ms ceiling ("start at the configured baseline, double on each
consecutive failure, and never exceed the configured ceiling"). -/
def backoffDelaysSpec (baseline n : Nat) : List Nat :=
  (List.range n).map (fun i => min (baseline * 2 ^ i) 30000)

/-- A fresh client with default options (no credentials configured). -/
def noCredsState : ClientState := ClientState.mk0 defaultOptions

/-- Default options plus API credentials. -/
def credsOptions : V5WSClientOptions :=
  { defaultOptions with key := some "api-key", secret := some "api-secret" }

/-- A client that called `connect('spot')` and whose socket then opened:
the spot record is CONNECTED with an open socket. -/
def spotConnectedState : ClientState :=
  (onOpen (connect (ClientState.mk0 defaultOptions) V5WSCategory.spot).st
    V5WSCategory.spot).st

/-- A client with spot and linear both connected. -/
def twoCategoryState : ClientState :=
  (onOpen (connect spotConnectedState V5WSCategory.linear).st
    V5WSCategory.linear).st

/-- A client with credentials that called `connect('private')` and whose
socket opened: per `ws.onopen` (line 216) the private record is CONNECTED
and the authentication handshake has been STARTED but has not completed. -/
def authPendingOpen : OnOpenResult :=
  onOpen (connect (ClientState.mk0 credsOptions) V5WSCategory.priv).st
    V5WSCategory.priv

/-- A subscribe acknowledgement frame as sent by the server. -/
def subAckFrame : WSMessage :=
  { WSMessage.empty with op := some "subscribe", success := some true }

/-- A successful auth acknowledgement frame. -/
def authOkFrame : WSMessage :=
  { WSMessage.empty with op := some "auth", success := some true }

/-- A failed auth acknowledgement frame carrying the server's message. -/
def authFailFrame : WSMessage :=
  { WSMessage.empty with
      op := some "auth", success := some false,
      ret_msg := some "invalid signature" }

/-! ## registry and backoff helper lemmas -/

theorem WsStore.get_set_same (s : WsStore) (k : V5WSCategory) (r : ConnRecord) :
    (s.set k r).get k = r := by
  cases k <;> rfl

theorem WsStore.get_set_ne (s : WsStore) (k k' : V5WSCategory) (r : ConnRecord)
    (h : k' ≠ k) : (s.set k r).get k' = s.get k' := by
  cases k <;> cases k' <;> first | exact (h rfl).elim | rfl

theorem isWsOpen_false_of_not_connected (r : ConnRecord)
    (h : r.state ≠ WsConnectionStateEnum.CONNECTED) : isWsOpen r = false := by
  simp [isWsOpen, h]

theorem foldl_addTopic_of_mem (ts l : List String) (h : ∀ t ∈ ts, t ∈ l) :
    ts.foldl addTopic l = l := by
  induction ts with
  | nil => rfl
  | cons t ts ih =>
    have ht : addTopic l t = l := by simp [addTopic, h t (List.mem_cons_self t ts)]
    rw [List.foldl_cons, ht]
    exact ih (fun x hx => h x (List.mem_cons_of_mem t hx))

theorem min_cap_mul (a c b : Nat) (hb : 1 ≤ b) :
    min (min a c * b) c = min (a * b) c := by
  rcases Nat.le_total a c with h | h
  · rw [Nat.min_eq_left h]
  · have h1 : c ≤ c * b := Nat.le_mul_of_pos_right c hb
    have h2 : c ≤ a * b := le_trans h (Nat.le_mul_of_pos_right a hb)
    rw [Nat.min_eq_right h, Nat.min_eq_right h1, Nat.min_eq_right h2]

theorem reconnectTrace_cons_false (rt : Nat) (rest : List Bool) :
    reconnectTrace rt (false :: rest)
      = (rt :: (reconnectTrace (min (rt * 2) 30000) rest).1,
         (reconnectTrace (min (rt * 2) 30000) rest).2) := rfl

theorem reconnectTrace_cons_true (rt : Nat) (rest : List Bool) :
    reconnectTrace rt (true :: rest) = ([rt], rt) := rfl

theorem reconnectTrace_replicate_false (n : Nat) :
    ∀ rt, rt ≤ 30000 → (reconnectTrace rt (List.replicate n false)).1
      = (List.range n).map (fun i => min (rt * 2 ^ i) 30000) := by
  induction n with
  | zero => intro rt _; rfl
  | succ n ih =>
    intro rt h
    rw [List.replicate_succ, reconnectTrace_cons_false, List.range_succ_eq_map,
      List.map_cons, List.map_map]
    show rt :: _ = min (rt * 2 ^ 0) 30000 :: _
    rw [List.cons_eq_cons]
    refine ⟨by rw [pow_zero, Nat.mul_one]; omega, ?_⟩
    rw [ih (min (rt * 2) 30000) (Nat.min_le_right _ _)]
    refine List.map_congr_left (fun i _ => ?_)
    show min (min (rt * 2) 30000 * 2 ^ i) 30000 = min (rt * 2 ^ (i + 1)) 30000
    rw [min_cap_mul _ _ _ Nat.one_le_two_pow]
    congr 1
    ring

theorem reconnectTrace_delays_le (outcomes : List Bool) :
    ∀ rt, rt ≤ 30000 → ∀ d ∈ (reconnectTrace rt outcomes).1, d ≤ 30000 := by
  induction outcomes with
  | nil => intro rt _ d hd; simp [reconnectTrace] at hd
  | cons o rest ih =>
    intro rt h d hd
    cases o
    · rw [reconnectTrace_cons_false] at hd
      rcases List.mem_cons.mp hd with rfl | hd2
      · exact h
      · exact ih (min (rt * 2) 30000) (Nat.min_le_right _ _) d hd2
    · rw [reconnectTrace_cons_true] at hd
      cases List.mem_singleton.mp hd
      exact h

theorem isWsOpen_iff (r : ConnRecord) :
    isWsOpen r = true ↔ r.state = WsConnectionStateEnum.CONNECTED
      ∧ r.ws = some { readyState := ReadyState.OPEN } := by
  obtain ⟨state, ws, topics⟩ := r
  cases ws with
  | none => simp [isWsOpen]
  | some s =>
    obtain ⟨rs⟩ := s
    cases rs <;> simp [isWsOpen]

theorem subscribe_open_eq (st : ClientState) (category : V5WSCategory)
    (topics : List String) (now : Nat)
    (h : isWsOpen (st.store.get category) = true) :
    subscribe st category topics now true
      = { st := { st with
              requestIdCounter := st.requestIdCounter + 1,
              store := st.store.set category
                { st.store.get category with
                    topics := topics.foldl addTopic (st.store.get category).topics } },
          sent := [{ WSMessage.empty with
              op := some "subscribe", args := topics,
              req_id := some (generateRequestId st.requestIdCounter now) }],
          error := none } := by
  obtain ⟨hstate, hws⟩ := (isWsOpen_iff _).mp h
  simp [subscribe, sendWSMessage, h, hws]

theorem reconnectTrace_final_after_failures (n : Nat) :
    ∀ rt, rt ≤ 30000 → (reconnectTrace rt (List.replicate n false ++ [true])).2
      = min (rt * 2 ^ n) 30000 := by
  induction n with
  | zero =>
    intro rt h
    rw [List.replicate_zero, List.nil_append, reconnectTrace_cons_true]
    show rt = min (rt * 2 ^ 0) 30000
    rw [pow_zero, Nat.mul_one]
    omega
  | succ n ih =>
    intro rt h
    rw [List.replicate_succ, List.cons_append, reconnectTrace_cons_false]
    show (reconnectTrace (min (rt * 2) 30000) (List.replicate n false ++ [true])).2
      = min (rt * 2 ^ (n + 1)) 30000
    rw [ih _ (Nat.min_le_right _ _), min_cap_mul _ _ _ Nat.one_le_two_pow]
    congr 1
    ring

/-! ## claim theorems -/

/-- C1: the claim says an explicitly requested close (state CLOSING) must
never trigger a reconnect attempt, regardless of the transport's close
status code.  The code contradicts this (and its own comment "Attempt
reconnection if not manually closed"): `ws.onclose` decides purely on
`event.code !== 1000`, never consulting the CLOSING state — here, after an
explicit `close('spot')` the record is CLOSING, yet a transport-reported
close code 1006 still schedules a reconnect. -/
theorem C1_explicit_close_still_reconnects :
    ((close spotConnectedState V5WSCategory.spot).st.store.get
        V5WSCategory.spot).state = WsConnectionStateEnum.CLOSING
    ∧ (close spotConnectedState V5WSCategory.spot).closeRequested = true
    ∧ (onClose (close spotConnectedState V5WSCategory.spot).st
        V5WSCategory.spot 1006).reconnectScheduled = true
    ∧ (onClose (close spotConnectedState V5WSCategory.spot).st
        V5WSCategory.spot 1000).reconnectScheduled = false := by
  decide

/-- C2 counterexample: the claim says the reconnect delay "is reset to the
baseline on every successful connection".  It is not: after one failed
attempt (delay 500, doubled to 1000) followed by a successful one, the
stored `reconnectTimeout` is 1000, not the 500 baseline — no code path
ever writes the baseline back. -/
theorem C2_success_leaves_doubled_delay :
    (reconnectTrace 500 [false, true]).1 = [500, 1000]
    ∧ (reconnectTrace 500 [false, true]).2 = 1000
    ∧ ¬ (reconnectTrace 500 [false, true]).2 = 500 := by
  decide

/-- C2 (amended): the reconnect delay starts at the configured baseline
(default 500 ms), doubles after each consecutive failed reconnect attempt,
and never exceeds the 30000 ms ceiling (five consecutive failures yield
delays [500, 1000, 2000, 4000, 8000]); but a successful connection does
NOT reset it — the stored delay remains at its last doubled value
`min (500 * 2 ^ n) 30000`. -/
theorem C2_backoff_doubles_capped_never_reset (n : Nat) :
    (reconnectTrace 500 (List.replicate n false)).1 = backoffDelaysSpec 500 n
    ∧ (∀ outcomes, ∀ d ∈ (reconnectTrace 500 outcomes).1, d ≤ 30000)
    ∧ (reconnectTrace 500 (List.replicate n false ++ [true])).2
        = min (500 * 2 ^ n) 30000 := by
  refine ⟨reconnectTrace_replicate_false n 500 (by omega),
    fun outcomes => reconnectTrace_delays_le outcomes 500 (by omega),
    reconnectTrace_final_after_failures n 500 (by omega)⟩

theorem C2_backoff_witness :
    (reconnectTrace 500 (List.replicate 5 false)).1 = backoffDelaysSpec 500 5
    ∧ (8000 : Nat) ≤ 30000
    ∧ (reconnectTrace 500 (List.replicate 5 false ++ [true])).2
        = min (500 * 2 ^ 5) 30000 :=
  ⟨(C2_backoff_doubles_capped_never_reset 5).1,
   (C2_backoff_doubles_capped_never_reset 5).2.1
     (List.replicate 5 false) 8000 (by decide),
   (C2_backoff_doubles_capped_never_reset 5).2.2⟩

/-- C3: on a successful automatic reconnection, the stored topic set for
the key is left exactly as it was (a reconnect never clears or mutates
it — replaying `subscribe` re-adds only topics already present), and if
non-empty it is replayed via exactly one `subscribe` call carrying all of
it; an empty set triggers no subscribe call. -/
theorem C3_reconnect_replays_topics (st : ClientState)
    (category : V5WSCategory) (now : Nat) :
    (((reconnectSuccess st category now).st.store.get category).topics
        = (st.store.get category).topics)
    ∧ ((st.store.get category).topics ≠ [] →
        (reconnectSuccess st category now).subscribeCalls
          = [(st.store.get category).topics])
    ∧ ((st.store.get category).topics = [] →
        (reconnectSuccess st category now).subscribeCalls = []) := by
  unfold reconnectSuccess
  simp only [WsStore.get_set_same]
  split
  case isTrue hlen =>
    rw [subscribe_open_eq _ _ _ _ (by simp [WsStore.get_set_same, isWsOpen])]
    simp only [WsStore.get_set_same]
    exact ⟨foldl_addTopic_of_mem _ _ (fun t ht => ht), fun _ => trivial,
      fun hnil => absurd hnil (List.ne_nil_of_length_pos hlen)⟩
  case isFalse hlen =>
    simp only [WsStore.get_set_same]
    exact ⟨trivial,
      fun hne => absurd (List.eq_nil_of_length_eq_zero (by omega)) hne,
      fun _ => trivial⟩

theorem C3_reconnect_replays_topics_witness :
    ((spotConnectedState.store.get V5WSCategory.spot).topics = [] →
      (reconnectSuccess spotConnectedState V5WSCategory.spot 7).subscribeCalls
        = []) :=
  (C3_reconnect_replays_topics spotConnectedState V5WSCategory.spot 7).2.2

/-- C4: when the connection for a category is already CONNECTED (with a
usable socket), a second `connect` is a no-op: the state is unchanged, no
new socket is constructed (hence no duplicate socket callbacks or event
emissions), and only the warning is logged. -/
theorem C4_connect_noop_when_connected (st : ClientState)
    (category : V5WSCategory)
    (h : isWsOpen (st.store.get category) = true) :
    connect st category = { st := st, socketCreated := false, warned := true } := by
  simp [connect, h]

theorem C4_connect_noop_witness :
    isWsOpen (spotConnectedState.store.get V5WSCategory.spot) = true
    ∧ connect spotConnectedState V5WSCategory.spot
        = { st := spotConnectedState, socketCreated := false, warned := true } :=
  ⟨by decide,
   C4_connect_noop_when_connected spotConnectedState V5WSCategory.spot (by decide)⟩

/-- C5 counterexample: the claim says `connect('private')` without
credentials fails synchronously before any socket is opened.  It does
not: `connect` performs no credential check for any category — a socket
is constructed and stored, and on open the client skips authentication
entirely and emits `open` immediately. -/
theorem C5_connect_private_without_creds_opens_socket :
    noCredsState.options.key = none
    ∧ noCredsState.options.secret = none
    ∧ (connect noCredsState V5WSCategory.priv).socketCreated = true
    ∧ ((connect noCredsState V5WSCategory.priv).st.store.get
        V5WSCategory.priv).ws.isSome = true
    ∧ (onOpen (connect noCredsState V5WSCategory.priv).st
        V5WSCategory.priv).authStarted = false
    ∧ (onOpen (connect noCredsState V5WSCategory.priv).st
        V5WSCategory.priv).emittedOpen = true := by
  decide

/-- C5 (amended): without credentials, `connect('private')` does not fail:
it constructs and stores a socket and, on open, skips authentication and
emits `open`.  The missing-credentials configuration error is raised
synchronously only by the private-topic subscribe path
(`subscribePrivateTopic`), which throws before sending and mutates
nothing. -/
theorem C5_connect_private_without_creds_amended (st : ClientState)
    (topics : List String) (now : Nat) (sendOk : Bool)
    (hk : st.options.key = none ∨ st.options.secret = none)
    (hopen : isWsOpen (st.store.get V5WSCategory.priv) = false) :
    (connect st V5WSCategory.priv).socketCreated = true
    ∧ (onOpen (connect st V5WSCategory.priv).st V5WSCategory.priv).authStarted
        = false
    ∧ subscribePrivateTopic st topics now sendOk
        = { st := st, sent := [],
            error := some "API key and secret are required for private topics" } := by
  rcases hk with hk | hk <;>
    exact ⟨by simp [connect, hopen],
      by simp [onOpen, connect, connectWSSync, hopen, hk],
      by simp [subscribePrivateTopic, hk]⟩

theorem C5_connect_private_without_creds_amended_witness :
    (connect noCredsState V5WSCategory.priv).socketCreated = true
    ∧ (onOpen (connect noCredsState V5WSCategory.priv).st
        V5WSCategory.priv).authStarted = false
    ∧ subscribePrivateTopic noCredsState ["order"] 0 true
        = { st := noCredsState, sent := [],
            error := some "API key and secret are required for private topics" } :=
  C5_connect_private_without_creds_amended noCredsState ["order"] 0 true
    (Or.inl rfl) (by decide)

/-- C6 counterexample: the claim says a private-topic subscribe issued
before the handshake completes must fail rather than silently send.  In
the code, `ws.onopen` sets the state to CONNECTED (line 216) BEFORE
`authenticate` runs, and `subscribe` checks only `isWsOpen` — so here,
with the handshake started but not completed, `subscribeOrders()` throws
no error and silently sends the private subscribe request. -/
theorem C6_subscribe_before_auth_completion_sent :
    authPendingOpen.authStarted = true
    ∧ authPendingOpen.emittedOpen = false
    ∧ (subscribeOrders authPendingOpen.st 0 true).error = none
    ∧ (subscribeOrders authPendingOpen.st 0 true).sent.map (fun m => m.args)
        = [["order"]] := by
  decide

/-- C6 (amended): a private-topic subscribe call succeeds or fails with no
regard to handshake completion: `subscribeOrders()` fails exactly when a
credential is missing or the private connection is not open, and whenever
it does not fail the subscribe frame for `['order']` is sent — even while
authentication is still pending (no completed-handshake check exists). -/
theorem C6_private_subscribe_gated_only_by_creds_and_open
    (st : ClientState) (now : Nat) :
    ((subscribeOrders st now true).error = none
      ↔ st.options.key ≠ none ∧ st.options.secret ≠ none
        ∧ isWsOpen (st.store.get V5WSCategory.priv) = true)
    ∧ ((subscribeOrders st now true).error = none →
        (subscribeOrders st now true).sent
          = [{ WSMessage.empty with
                op := some "subscribe", args := ["order"],
                req_id := some (generateRequestId st.requestIdCounter now) }]) := by
  by_cases hk : st.options.key = none
  · constructor <;>
      simp [subscribeOrders, subscribePrivateTopic, hk]
  · by_cases hs : st.options.secret = none
    · constructor <;>
        simp [subscribeOrders, subscribePrivateTopic, hk, hs,
          Option.isNone_iff_eq_none]
    · by_cases hopen : isWsOpen (st.store.get V5WSCategory.priv) = true
      · constructor <;>
          simp [subscribeOrders, subscribePrivateTopic, hk, hs, hopen,
            Option.isNone_iff_eq_none, subscribe_open_eq _ _ _ _ hopen]
      · constructor <;>
          simp [subscribeOrders, subscribePrivateTopic, subscribe, hk, hs,
            hopen, Option.isNone_iff_eq_none]

theorem C6_private_subscribe_witness :
    (subscribeOrders authPendingOpen.st 5 true).error = none :=
  (C6_private_subscribe_gated_only_by_creds_and_open authPendingOpen.st 5).1.mpr
    (by decide)

/-- C7 counterexample: the claim says a failure or reconnection cycle on
one category leaves every other category's backoff delay unchanged.  The
backoff delay is the single client-wide `reconnectTimeout` option: a
failed reconnect attempt on spot doubles the delay the linear category's
next reconnect will use, from 500 to 1000. -/
theorem C7_reconnect_failure_affects_other_category_delay :
    nextReconnectDelay twoCategoryState V5WSCategory.linear = 500
    ∧ nextReconnectDelay
        (failedReconnectAttempt twoCategoryState V5WSCategory.spot)
        V5WSCategory.linear = 1000 := by
  decide

/-- C7 (amended): a failed reconnect attempt on category `a` leaves every
other category's connection record — state, socket, topic set — unchanged;
the backoff delay, however, is a single client-wide option, so the failure
doubles (capped at 30000) the delay that EVERY category, including `b`,
will use for its next reconnect. -/
theorem C7_failure_frame_effect_amended (st : ClientState)
    (a b : V5WSCategory) (h : b ≠ a) :
    (failedReconnectAttempt st a).store.get b = st.store.get b
    ∧ (failedReconnectAttempt st a).options.reconnectTimeout
        = min (st.options.reconnectTimeout * 2) 30000
    ∧ nextReconnectDelay (failedReconnectAttempt st a) b
        = min (st.options.reconnectTimeout * 2) 30000 := by
  refine ⟨?_, rfl, rfl⟩
  simp only [failedReconnectAttempt, reconnectFailureStep, onClose,
    connectWSSync]
  rw [WsStore.get_set_ne _ _ _ _ h, WsStore.get_set_ne _ _ _ _ h]

theorem C7_failure_frame_effect_witness :
    (failedReconnectAttempt twoCategoryState V5WSCategory.spot).store.get
        V5WSCategory.linear
      = twoCategoryState.store.get V5WSCategory.linear
    ∧ (failedReconnectAttempt twoCategoryState
        V5WSCategory.spot).options.reconnectTimeout
      = min (twoCategoryState.options.reconnectTimeout * 2) 30000
    ∧ nextReconnectDelay
        (failedReconnectAttempt twoCategoryState V5WSCategory.spot)
        V5WSCategory.linear
      = min (twoCategoryState.options.reconnectTimeout * 2) 30000 :=
  C7_failure_frame_effect_amended twoCategoryState V5WSCategory.spot
    V5WSCategory.linear (by decide)

/-- C8: the claim says the handshake resolves on a matching auth
acknowledgement for EVERY interleaving of inbound response frames,
including when non-auth acknowledgements arrive first.  The code's
`handleAuth` guard (`if message.op === 'auth'`) shows that intent, but the
handler is registered with `this.once('response', ...)` (line 294), so the
first response of ANY op consumes it: when a subscribe acknowledgement
precedes the successful auth acknowledgement, the handshake times out
instead of resolving.  The matching-frame behaviour holds only when the
auth acknowledgement is the first response. -/
theorem C8_once_listener_misses_delayed_auth_ack :
    authOutcomeOfFrames [subAckFrame, authOkFrame]
        = AuthOutcome.rejectedTimeout
    ∧ authOutcomeOfFrames [authOkFrame] = AuthOutcome.resolved
    ∧ authOutcomeOfFrames [authFailFrame]
        = AuthOutcome.rejectedAuthFailed (some "invalid signature")
    ∧ authOutcomeOfFrames [] = AuthOutcome.rejectedTimeout := by
  decide

/-- C9: calling `subscribe` or `unsubscribe` while the connection for the
category is not CONNECTED fails synchronously with the not-connected
error, leaving the client state untouched and handing nothing to the
socket — nothing is queued or retried. -/
theorem C9_not_connected_fails_synchronously (st : ClientState)
    (category : V5WSCategory) (topics : List String) (now : Nat)
    (sendOk : Bool)
    (h : (st.store.get category).state ≠ WsConnectionStateEnum.CONNECTED) :
    subscribe st category topics now sendOk
      = { st := st, sent := [],
          error := some ("WebSocket for category " ++ categoryStr category
            ++ " is not connected") }
    ∧ unsubscribe st category topics now sendOk
      = { st := st, sent := [],
          error := some ("WebSocket for category " ++ categoryStr category
            ++ " is not connected") } := by
  have hfalse := isWsOpen_false_of_not_connected _ h
  exact ⟨by simp [subscribe, hfalse], by simp [unsubscribe, hfalse]⟩

theorem C9_not_connected_witness :
    ((ClientState.mk0 defaultOptions).store.get V5WSCategory.spot).state
        ≠ WsConnectionStateEnum.CONNECTED
    ∧ subscribe (ClientState.mk0 defaultOptions) V5WSCategory.spot
        ["orderbook.1.BTCUSDT"] 0 true
      = { st := ClientState.mk0 defaultOptions, sent := [],
          error := some ("WebSocket for category "
            ++ categoryStr V5WSCategory.spot ++ " is not connected") } :=
  ⟨by decide,
   (C9_not_connected_fails_synchronously (ClientState.mk0 defaultOptions)
     V5WSCategory.spot ["orderbook.1.BTCUSDT"] 0 true (by decide)).1⟩

theorem subscribe_store_on_error (st : ClientState) (category : V5WSCategory)
    (topics : List String) (now : Nat) (sendOk : Bool)
    (he : (subscribe st category topics now sendOk).error.isSome = true) :
    (subscribe st category topics now sendOk).st.store = st.store := by
  by_cases hopen : isWsOpen (st.store.get category) = true
  · cases hsend : sendWSMessage
        { st with requestIdCounter := st.requestIdCounter + 1 }
        category sendOk with
    | none => simp [subscribe, hopen, hsend] at he
    | some e => simp [subscribe, hopen, hsend]
  · simp [subscribe, hopen]

theorem unsubscribe_store_on_error (st : ClientState)
    (category : V5WSCategory) (topics : List String) (now : Nat)
    (sendOk : Bool)
    (he : (unsubscribe st category topics now sendOk).error.isSome = true) :
    (unsubscribe st category topics now sendOk).st.store = st.store := by
  by_cases hopen : isWsOpen (st.store.get category) = true
  · cases hsend : sendWSMessage
        { st with requestIdCounter := st.requestIdCounter + 1 }
        category sendOk with
    | none => simp [unsubscribe, hopen, hsend] at he
    | some e => simp [unsubscribe, hopen, hsend]
  · simp [unsubscribe, hopen]

/-- C10: whenever `subscribe` or `unsubscribe` throws — not-connected
check or a failing socket send — the stored topic set for the category is
left unchanged: both throw points precede the topic mutation. -/
theorem C10_error_leaves_topics_unchanged (st : ClientState)
    (category : V5WSCategory) (topics : List String) (now : Nat)
    (sendOk : Bool) :
    ((subscribe st category topics now sendOk).error.isSome = true →
      ((subscribe st category topics now sendOk).st.store.get category).topics
        = (st.store.get category).topics)
    ∧ ((unsubscribe st category topics now sendOk).error.isSome = true →
      ((unsubscribe st category topics now sendOk).st.store.get
          category).topics
        = (st.store.get category).topics) :=
  ⟨fun he => by rw [subscribe_store_on_error st category topics now sendOk he],
   fun he => by
     rw [unsubscribe_store_on_error st category topics now sendOk he]⟩

theorem C10_error_leaves_topics_witness :
    (subscribe (ClientState.mk0 defaultOptions) V5WSCategory.linear
        ["kline.1.BTCUSDT"] 0 true).error.isSome = true
    ∧ ((subscribe (ClientState.mk0 defaultOptions) V5WSCategory.linear
        ["kline.1.BTCUSDT"] 0 true).st.store.get V5WSCategory.linear).topics
      = ((ClientState.mk0 defaultOptions).store.get V5WSCategory.linear).topics :=
  ⟨by decide,
   (C10_error_leaves_topics_unchanged (ClientState.mk0 defaultOptions)
     V5WSCategory.linear ["kline.1.BTCUSDT"] 0 true).1 (by decide)⟩

end BybitV5
